import Mathlib

/-!
Shallow embedding of the dcq bridge control loop
(`bridge/qcs_dcq_bridge.py`) and the reference planning plugin
(`bridge/dcq_plugin.py`) of the quantum-interconnect-hybrid repository.

Python floats are modelled as rationals (`ℚ`); every arithmetic step of
the embedded code is the exact real-number counterpart of the source
expression.  Fallible code (`raise ValueError`, `raise RuntimeError`)
is modelled with `Except String`.  Remote calls issued by the loop are
recorded as explicit `Action` values carrying exactly the payload
fields of the corresponding request messages of the controller and
planner interfaces.
-/

namespace DcqBridge

/-- Python truthiness of an optional string: `None` and `""` are falsy. -/
def strTruthy : Option String → Bool
  | none => false
  | some s => s ≠ ""

/-- Python `x or y` on numbers: `y` when `x` is zero, else `x`. -/
def pyOr (x y : ℚ) : ℚ := if x = 0 then y else x

/-- Function `clamp(value, bounds)` from `qcs_dcq_bridge.py`: raises on inverted
bounds, otherwise returns `max(lo, min(hi, value))`. -/
def clamp (value : ℚ) (bounds : ℚ × ℚ) : Except String ℚ :=
  let lo := bounds.1
  let hi := bounds.2
  if lo > hi then .error "invalid clamp bounds"
  else .ok (max lo (min hi value))

/-- The `SafetyLimits` dataclass. -/
structure SafetyLimits where
  mu_range : ℚ × ℚ
  rep_rate_hz_range : ℚ × ℚ
  amzi_phase_deg_limit : ℚ
  qber_hard_ceiling_pct : ℚ
  shutter_guard : Bool
deriving DecidableEq, Repr

/-- The `safety` section of the configuration dictionary: each key may be
absent, mirroring `data.get(key, default)`. -/
structure SafetyDict where
  mu_range : Option (ℚ × ℚ)
  rep_rate_hz_range : Option (ℚ × ℚ)
  amzi_phase_deg_limit : Option ℚ
  qber_hard_ceiling_pct : Option ℚ
  shutter_guard : Option Bool
deriving DecidableEq, Repr

/-- Classmethod `SafetyLimits.from_dict`: substitutes defaults for absent keys and
performs no validation of the ranges. -/
def SafetyLimits.from_dict (data : SafetyDict) : SafetyLimits :=
  { mu_range := data.mu_range.getD (0, 1)
    rep_rate_hz_range := data.rep_rate_hz_range.getD (0, 0)
    amzi_phase_deg_limit := data.amzi_phase_deg_limit.getD 0
    qber_hard_ceiling_pct := data.qber_hard_ceiling_pct.getD 0
    shutter_guard := data.shutter_guard.getD true }

/-- The `SafetyLimits.mu_bounds` property. -/
def SafetyLimits.mu_bounds (s : SafetyLimits) : ℚ × ℚ := s.mu_range

/-- The `SafetyLimits.rep_bounds` property. -/
def SafetyLimits.rep_bounds (s : SafetyLimits) : ℚ × ℚ := s.rep_rate_hz_range

/-- The `dcq.Domain` enum values used by the bridge and the plugin. -/
inductive Domain where
  | FSO
  | MMWAVE
  | LEO
  | WIFI7
  | FR3_6G
deriving DecidableEq, Repr

/-- The `dcq.ClockModel` message. -/
structure ClockModel where
  coarse_ppb : ℚ
  fine_hz : ℚ
  tdc_bin_ps : ℚ
  gate_ns : ℚ
deriving DecidableEq, Repr

/-- The `dcq.Telemetry` message (as produced by the bridge translator). -/
structure Telemetry where
  t_unix_ms : Int
  qber_pct : ℚ
  sifted_rate_cps : ℚ
  secure_rate_bps : ℚ
  jitter_ps : ℚ
  atm_loss_db_per_km : ℚ
  dark_cps : ℚ
  det_eff : ℚ
  temperature_c : ℚ
  site : String
  active_domain : Domain
  scintillation_idx : ℚ
deriving DecidableEq, Repr

/-- The `dcq.Constraints` message. -/
structure Constraints where
  mu_min : ℚ
  mu_max : ℚ
  rep_rate_min_hz : ℚ
  rep_rate_max_hz : ℚ
  qber_hard_ceiling_pct : ℚ
deriving DecidableEq, Repr

/-- The `dcq.SloClass` enum. -/
inductive SloClass where
  | URLLC
  | EMBB
deriving DecidableEq, Repr

/-- The `dcq.Slo` message. -/
structure Slo where
  cls : SloClass
  jitter_ps_target : ℚ
  key_rate_min_bps : ℚ
deriving DecidableEq, Repr

/-- The `dcq.DecoyProfile` message. -/
structure DecoyProfile where
  mu_signal : ℚ
  mu_decoy : ℚ
  vac_prob : ℚ
  sig_prob : ℚ
  decoy_prob : ℚ
deriving DecidableEq, Repr

/-- The `dcq.TxOverrides` message; the `decoys` submessage is optional. -/
structure TxOverrides where
  rep_rate_hz : ℚ
  pulse_width_ps : ℚ
  decoys : Option DecoyProfile
  gate_shift_ps : ℚ
deriving DecidableEq, Repr

/-- The `dcq.PhaseOverrides` message. -/
structure PhaseOverrides where
  amzi_phase_deg : ℚ
  eom_bias_v_delta : ℚ
deriving DecidableEq, Repr

/-- The `dcq.DomainPolicy` message. -/
structure DomainPolicy where
  preferred : Domain
  srv6_bsid : String
  dscp : Int
  mlo_prefer_6ghz : Bool
deriving DecidableEq, Repr

/-- The `dcq.PlanResponse` message; the three submessages are optional
(`plan.HasField(...)` in the bridge).  The human-readable `rationale`
string is observability metadata and is not modelled. -/
structure PlanResponse where
  tx : Option TxOverrides
  phase : Option PhaseOverrides
  domain : Option DomainPolicy
  next_cycle_ms : Int
deriving DecidableEq, Repr

/-- The `dcq.PlanRequest` message. -/
structure PlanRequest where
  clock : ClockModel
  tel : Telemetry
  limits : Constraints
  slo : Slo
deriving DecidableEq, Repr

/-- Method `Plugin.PlanCycle` from `dcq_plugin.py`: the reference planning
heuristic, a pure function of the held clock model and the request. -/
def PlanCycle (clock : ClockModel) (request : PlanRequest) : PlanResponse :=
  let telemetry := request.tel
  let limits := request.limits
  let rep_floor := max limits.rep_rate_min_hz 1.0e6
  let rep_ceiling := pyOr limits.rep_rate_max_hz 1.0e9
  let rep_rate := max rep_floor (min 1.0e8 rep_ceiling)
  let rep_rate :=
    if telemetry.atm_loss_db_per_km > 10 ∨ telemetry.qber_pct > 3 then
      max rep_floor (rep_rate / 2) else rep_rate
  let rep_rate :=
    if telemetry.atm_loss_db_per_km > 20 ∨ telemetry.qber_pct > 5 then
      max rep_floor (rep_rate / 4) else rep_rate
  let gate_shift_ps := (clock.fine_hz / rep_rate) * 1.0e12
  let gate_shift_ps := max (min gate_shift_ps 150) (-150)
  let profile : DecoyProfile :=
    { mu_signal := 0.50, mu_decoy := 0.08, vac_prob := 0.10, sig_prob := 0.75, decoy_prob := 0.15 }
  let profile :=
    if telemetry.atm_loss_db_per_km > 10 ∨ telemetry.qber_pct > 3 then
      { mu_signal := 0.40, mu_decoy := 0.06, vac_prob := 0.15, sig_prob := 0.65, decoy_prob := 0.20 }
    else profile
  let profile :=
    if telemetry.atm_loss_db_per_km > 20 ∨ telemetry.qber_pct > 5 then
      { mu_signal := 0.30, mu_decoy := 0.05, vac_prob := 0.20, sig_prob := 0.60, decoy_prob := 0.20 }
    else profile
  let phase_deg : ℚ :=
    if telemetry.scintillation_idx > 0.3 then
      max (min ((telemetry.scintillation_idx - 0.3) * 20) 8) (-8)
    else 0
  let dom : DomainPolicy :=
    { preferred := Domain.FSO, srv6_bsid := "FC00::A", dscp := 46, mlo_prefer_6ghz := true }
  let dom :=
    if telemetry.atm_loss_db_per_km > 20 ∨ telemetry.qber_pct > 5 then
      { preferred := Domain.MMWAVE, srv6_bsid := "FC00::A", dscp := 46, mlo_prefer_6ghz := true }
    else dom
  { tx := some
      { rep_rate_hz := rep_rate
        pulse_width_ps := 100
        decoys := some profile
        gate_shift_ps := gate_shift_ps }
    phase := some { amzi_phase_deg := phase_deg, eom_bias_v_delta := 0 }
    domain := some dom
    next_cycle_ms := 500 }

/-- The `DomainMapping` dataclass. -/
structure DomainMapping where
  urlcc_dscp : Option Int
  embb_dscp : Option Int
  srv6_bsid_urlcc : Option String
  srv6_bsid_embb : Option String
  mlo_prefer_6ghz : Bool
deriving DecidableEq, Repr

/-- The `BridgeConfig` dataclass (the fields the control loop reads; the
endpoint / TLS / listen fields only drive channel establishment and are
not consumed by the loop body). -/
structure BridgeConfig where
  cycle_period_ms : Int
  telemetry_period_ms : Int
  safety : SafetyLimits
  mapping : DomainMapping
deriving DecidableEq, Repr

/-- Requests the loop issues to its collaborators, carrying exactly the
payload fields of the corresponding messages of the controller and
planner interfaces, plus the explicit inter-tick sleep. -/
inductive Action where
  | shutterReq (opn : Bool)
  | stopReq (session_id : Option String)
  | startReq (session_id : Option String)
  | configureReq (mode : String) (wavelength_nm symbol_rate_MHz divergence_urad : ℚ)
      (use_spad ptp_enable : Bool)
  | setDecoyReq (session_id : Option String) (mu_signal mu_decoy vacuum_prob : ℚ)
  | calibrateReq (typ : String)
  | planReq (request : PlanRequest)
  | sleepCycle (ms : Int)
deriving DecidableEq, Repr

/-- Mutable loop state of `BridgeRuntime`: the held session id and the
running flag (`RUNNING` ↔ `running = true`, `PARKED` ↔ `running = false`). -/
structure LoopState where
  session_id : Option String
  running : Bool
deriving DecidableEq, Repr

namespace BridgeRuntime

/-- Method `BridgeRuntime._initial_symbol_rate_mhz`. -/
def initial_symbol_rate_mhz (config : BridgeConfig) : ℚ :=
  let lo := config.safety.rep_bounds.1
  let hi := config.safety.rep_bounds.2
  if hi ≤ 0 then 100
  else (lo + hi) / 2 / 1.0e6

/-- The fall-through path of `ensure_session` when no truthy session id
is held: check the stub, issue Configure at the initial symbol rate,
capture the returned session id, issue StartQkd, set the running flag. -/
def ensure_fresh (config : BridgeConfig) (st : LoopState) (qcs_connected : Bool)
    (controller_session : String) : Except String (LoopState × List Action × String) :=
  if ¬ qcs_connected then .error "QCS stub is not connected"
  else
    let rate := initial_symbol_rate_mhz config
    .ok
      ({ st with session_id := some controller_session, running := true },
       [Action.configureReq "BB84_TIME_BIN" 1550 rate 100 false true,
        Action.startReq (some controller_session)],
       controller_session)

/-- Method `BridgeRuntime.ensure_session`.  Here `qcs_connected` models whether the
controller stub is present; `controller_session` models the session id the
controller's Configure response returns.  The result carries the new loop
state, the controller requests issued, and the returned session id. -/
def ensure_session (config : BridgeConfig) (st : LoopState) (qcs_connected : Bool)
    (controller_session : String) : Except String (LoopState × List Action × String) :=
  match st.session_id with
  | some sid =>
    if sid ≠ "" then .ok (st, [], sid)
    else ensure_fresh config st qcs_connected controller_session
  | none => ensure_fresh config st qcs_connected controller_session

/-- Method `BridgeRuntime._plan_constraints`. -/
def plan_constraints (config : BridgeConfig) : Constraints :=
  let safety := config.safety
  { mu_min := safety.mu_bounds.1
    mu_max := safety.mu_bounds.2
    rep_rate_min_hz := safety.rep_bounds.1
    rep_rate_max_hz := safety.rep_bounds.2
    qber_hard_ceiling_pct := safety.qber_hard_ceiling_pct }

/-- Method `BridgeRuntime._default_slo`. -/
def default_slo : Slo :=
  { cls := SloClass.URLLC, jitter_ps_target := 50, key_rate_min_bps := 5.0e4 }

/-- The baseline clock model the bridge pushes and embeds in every plan
request. -/
def baseline_clock : ClockModel :=
  { coarse_ppb := 0, fine_hz := 0, tdc_bin_ps := 10, gate_ns := 1 }

/-- The `dcq.PlanRequest` built by each iteration of `BridgeRuntime.run`. -/
def plan_request (config : BridgeConfig) (telemetry : Telemetry) : PlanRequest :=
  { clock := baseline_clock
    tel := telemetry
    limits := plan_constraints config
    slo := default_slo }

/-- Method `BridgeRuntime._clamp_decoys`. -/
def clamp_decoys (safety : SafetyLimits) (decoys : DecoyProfile) :
    Except String DecoyProfile := do
  let mu_sig ← clamp (pyOr decoys.mu_signal 0) safety.mu_bounds
  let mu_dec ← clamp (pyOr decoys.mu_decoy 0) (safety.mu_bounds.1 / 10, safety.mu_bounds.2)
  let vac_prob ← clamp (pyOr decoys.vac_prob 0) (0, 1)
  let sig_prob ← clamp (pyOr decoys.sig_prob 0) (0, 1)
  let decoy_prob ← clamp (pyOr decoys.decoy_prob 0) (0, 1)
  .ok
    { mu_signal := mu_sig
      mu_decoy := mu_dec
      vac_prob := vac_prob
      sig_prob := sig_prob
      decoy_prob := decoy_prob }

/-- The decoy block of `BridgeRuntime._apply_plan`
(`if plan.HasField("tx") and plan.tx.HasField("decoys")`). -/
def decoy_step (config : BridgeConfig) (session_id : Option String)
    (plan : PlanResponse) : Except String (List Action) :=
  match plan.tx with
  | some tx =>
    match tx.decoys with
    | some d =>
      match clamp_decoys config.safety d with
      | .error e => .error e
      | .ok decoys =>
        .ok [Action.setDecoyReq session_id decoys.mu_signal decoys.mu_decoy decoys.vac_prob]
    | none => .ok []
  | none => .ok []

/-- The repetition-rate block of `BridgeRuntime._apply_plan`
(`if plan.HasField("tx") and plan.tx.rep_rate_hz`). -/
def rate_step (config : BridgeConfig) (plan : PlanResponse) : Except String (List Action) :=
  match plan.tx with
  | some tx =>
    if tx.rep_rate_hz ≠ 0 then
      match clamp tx.rep_rate_hz config.safety.rep_bounds with
      | .error e => .error e
      | .ok rep_rate =>
        let symbol_rate_mhz := rep_rate / 1.0e6
        .ok [Action.configureReq "BB84_TIME_BIN" 1550 symbol_rate_mhz 100 false true]
    else .ok []
  | none => .ok []

/-- The phase block of `BridgeRuntime._apply_plan`
(`if plan.HasField("phase") and abs(plan.phase.amzi_phase_deg) > 0.1`).
Also returns the clamped phase delta computed in the branch (the source
logs this value; it is not carried in any request). -/
def phase_step (config : BridgeConfig) (plan : PlanResponse) :
    Except String (List Action × Option ℚ) :=
  match plan.phase with
  | some ph =>
    if |ph.amzi_phase_deg| > 0.1 then
      match clamp ph.amzi_phase_deg
        (-config.safety.amzi_phase_deg_limit, config.safety.amzi_phase_deg_limit) with
      | .error e => .error e
      | .ok phase_delta => .ok ([Action.calibrateReq "MZI_PHASE"], some phase_delta)
    else .ok ([], none)
  | none => .ok ([], none)

/-- Method `BridgeRuntime._apply_plan`.  Returns the controller requests issued,
in order, together with the clamped phase delta of the phase branch.
`_publish_domain_policy` only logs the domain intent and issues no
controller request. -/
def apply_plan (config : BridgeConfig) (qcs_connected : Bool) (session_id : Option String)
    (plan : PlanResponse) : Except String (List Action × Option ℚ) :=
  if ¬ qcs_connected ∨ ¬ strTruthy session_id then
    .error "QCS session not established"
  else
    match decoy_step config session_id plan with
    | .error e => .error e
    | .ok decoyActs =>
      match rate_step config plan with
      | .error e => .error e
      | .ok rateActs =>
        match phase_step config plan with
        | .error e => .error e
        | .ok phasePart => .ok (decoyActs ++ rateActs ++ phasePart.1, phasePart.2)

/-- One iteration of the `while True` loop body of `BridgeRuntime.run`,
acting on the telemetry translated from the polled status.  `planner`
models the remote `PlanCycle` call. -/
def tick (config : BridgeConfig) (st : LoopState) (telemetry : Telemetry)
    (planner : PlanRequest → PlanResponse) : Except String (LoopState × List Action) :=
  if telemetry.qber_pct ≥ config.safety.qber_hard_ceiling_pct then
    if st.running then
      .ok ({ st with running := false },
        [Action.shutterReq false, Action.stopReq st.session_id,
         Action.sleepCycle config.cycle_period_ms])
    else
      .ok (st, [Action.sleepCycle config.cycle_period_ms])
  else
    let recover :=
      if ¬ st.running then
        ({ st with running := true },
         [Action.shutterReq true, Action.startReq st.session_id])
      else (st, [])
    let st1 := recover.1
    let request := plan_request config telemetry
    let plan := planner request
    match apply_plan config true st1.session_id plan with
    | .error e => .error e
    | .ok (applyActs, _) =>
      .ok (st1,
        recover.2 ++ [Action.planReq request] ++ applyActs ++
          [Action.sleepCycle config.cycle_period_ms])

/-- Iterating `tick` over a list of successive telemetry snapshots,
accumulating the issued requests. -/
def runTicks (config : BridgeConfig) (st : LoopState) (tels : List Telemetry)
    (planner : PlanRequest → PlanResponse) : Except String (LoopState × List Action) :=
  match tels with
  | [] => .ok (st, [])
  | t :: ts =>
    match tick config st t planner with
    | .error e => .error e
    | .ok (st1, acts1) =>
      match runTicks config st1 ts planner with
      | .error e => .error e
      | .ok (st2, acts2) => .ok (st2, acts1 ++ acts2)

end BridgeRuntime

/-! Concrete sample values used to instantiate the theorems below. -/

/-- A telemetry snapshot with every optional field defaulted, loss 25 dB/km
and QBER 6 % (the tier-2 trigger point of the spec). -/
def telLoss25Qber6 : Telemetry :=
  { t_unix_ms := 0, qber_pct := 6, sifted_rate_cps := 0, secure_rate_bps := 0,
    jitter_ps := 0, atm_loss_db_per_km := 25, dark_cps := 0, det_eff := 0,
    temperature_c := 0, site := "unknown", active_domain := Domain.FSO,
    scintillation_idx := 0 }

/-- The same snapshot at QBER 2 % and no loss (healthy channel). -/
def telQber2 : Telemetry :=
  { telLoss25Qber6 with qber_pct := 2, atm_loss_db_per_km := 0 }

/-- The same snapshot at QBER 0 %. -/
def telQber0 : Telemetry :=
  { telLoss25Qber6 with qber_pct := 0, atm_loss_db_per_km := 0 }

/-- Non-degenerate constraints: mu ∈ [0.05, 0.5], rep rate ∈ [1 MHz, 1 GHz]. -/
def sampleLimits : Constraints :=
  { mu_min := 0.05, mu_max := 0.5, rep_rate_min_hz := 1.0e6,
    rep_rate_max_hz := 1.0e9, qber_hard_ceiling_pct := 5 }

/-- A tier-2 plan request over the non-degenerate sample constraints. -/
def tier2Request : PlanRequest :=
  { clock := BridgeRuntime.baseline_clock, tel := telLoss25Qber6,
    limits := sampleLimits, slo := BridgeRuntime.default_slo }

/-- An advisory-only domain mapping. -/
def sampleMapping : DomainMapping :=
  { urlcc_dscp := none, embb_dscp := none, srv6_bsid_urlcc := none,
    srv6_bsid_embb := none, mlo_prefer_6ghz := false }

/-- A safety section carrying only a 5 % QBER ceiling; every other key is
absent and takes its `from_dict` default. -/
def sampleSafetyDict : SafetyDict :=
  { mu_range := none, rep_rate_hz_range := none, amzi_phase_deg_limit := none,
    qber_hard_ceiling_pct := some 5, shutter_guard := none }

/-- A safety section with no QBER ceiling key at all. -/
def noCeilingSafetyDict : SafetyDict :=
  { sampleSafetyDict with qber_hard_ceiling_pct := none }

/-- Bridge configuration built from `sampleSafetyDict`. -/
def sampleConfig : BridgeConfig :=
  { cycle_period_ms := 500, telemetry_period_ms := 250,
    safety := SafetyLimits.from_dict sampleSafetyDict, mapping := sampleMapping }

/-- Bridge configuration built from `noCeilingSafetyDict`. -/
def noCeilingConfig : BridgeConfig :=
  { sampleConfig with safety := SafetyLimits.from_dict noCeilingSafetyDict }

/-- The reference plugin with the baseline clock model, as the planner seen
by the loop. -/
def samplePlanner : PlanRequest → PlanResponse :=
  PlanCycle BridgeRuntime.baseline_clock

/-! Claim theorems. -/

/-- C2: for every value and bound pair, if `lo ≤ hi` the clamped result
lies in `[lo, hi]`, and if `lo > hi` clamping fails with a configuration
error instead of returning a value. -/
theorem C2_clamp_correct (v lo hi : ℚ) :
    (lo ≤ hi → ∃ r, clamp v (lo, hi) = .ok r ∧ lo ≤ r ∧ r ≤ hi) ∧
    (lo > hi → clamp v (lo, hi) = .error "invalid clamp bounds") := by
  constructor
  · intro hle
    refine ⟨max lo (min hi v), ?_, le_max_left _ _, max_le hle (min_le_left _ _)⟩
    simp [clamp, not_lt.mpr hle]
  · intro hgt
    simp [clamp, hgt]

/-- Witness for C2 at `v = 7`, bounds `(0, 5)` and `(5, 0)`. -/
theorem C2_clamp_correct_witness :
    (∃ r, clamp 7 ((0 : ℚ), 5) = .ok r ∧ (0 : ℚ) ≤ r ∧ r ≤ 5) ∧
      clamp 7 ((5 : ℚ), 0) = .error "invalid clamp bounds" :=
  ⟨(C2_clamp_correct 7 0 5).1 (by norm_num), (C2_clamp_correct 7 5 0).2 (by norm_num)⟩

/-- C8: the planner's gate shift equals `(fine_hz / rep_rate) * 1e12`
clamped to `[-150, 150]`, where `rep_rate` is the repetition rate returned
in the same plan, and in particular always lies in `[-150, 150]`. -/
theorem C8_gate_shift_bound (clock : ClockModel) (request : PlanRequest) :
    ∃ tx, (PlanCycle clock request).tx = some tx ∧
      tx.gate_shift_ps = max (min ((clock.fine_hz / tx.rep_rate_hz) * 1.0e12) 150) (-150) ∧
      -150 ≤ tx.gate_shift_ps ∧ tx.gate_shift_ps ≤ 150 := by
  refine ⟨_, rfl, rfl, le_max_right _ _, max_le (min_le_right _ _) (by norm_num)⟩

/-- C3 counterexample: at telemetry (loss = 25, qber = 6) over the
non-degenerate sample constraints (rep range [1e6, 1e9]) the planner
returns `rep_rate_hz = 12.5 MHz`, which is the tier-0 clamped baseline
(1e8) divided by eight — not the tier-0 baseline divided by four and
floor-clamped (`max(1e6, 1e8/4) = 25 MHz`) as the claim states. -/
theorem C3_rep_rate_counterexample :
    ((PlanCycle BridgeRuntime.baseline_clock tier2Request).tx.map TxOverrides.rep_rate_hz) =
        some 12500000 ∧
      (12500000 : ℚ) ≠
        max (max tier2Request.limits.rep_rate_min_hz 1.0e6)
          ((max (max tier2Request.limits.rep_rate_min_hz 1.0e6)
             (min 1.0e8 (pyOr tier2Request.limits.rep_rate_max_hz 1.0e9))) / 4) := by
  constructor
  · norm_num [PlanCycle, tier2Request, sampleLimits, telLoss25Qber6,
      BridgeRuntime.baseline_clock, BridgeRuntime.default_slo, pyOr]
  · norm_num [tier2Request, sampleLimits, pyOr]

/-- C3 (amended): for telemetry with loss 25 dB/km and QBER 6 % (and any
clock model and constraints) the plan prefers the millimeter-wave domain
with DSCP 46, carries exactly the decoy profile
(0.30, 0.05, 0.20, 0.60, 0.20), and its `rep_rate_hz` is the tier-1 rate
(the tier-0 clamped baseline halved then floor-clamped) divided by four
and floor-clamped again, with `rep_floor = max(configured_min, 1e6)`. -/
theorem C3_tier2_plan (clock : ClockModel) (request : PlanRequest)
    (hloss : request.tel.atm_loss_db_per_km = 25) (hq : request.tel.qber_pct = 6) :
    ∃ tx dom,
      (PlanCycle clock request).tx = some tx ∧
      (PlanCycle clock request).domain = some dom ∧
      dom.preferred = Domain.MMWAVE ∧ dom.dscp = 46 ∧
      tx.decoys = some { mu_signal := 0.30, mu_decoy := 0.05, vac_prob := 0.20,
                          sig_prob := 0.60, decoy_prob := 0.20 } ∧
      tx.rep_rate_hz =
        max (max request.limits.rep_rate_min_hz 1.0e6)
          ((max (max request.limits.rep_rate_min_hz 1.0e6)
             ((max (max request.limits.rep_rate_min_hz 1.0e6)
                (min 1.0e8 (pyOr request.limits.rep_rate_max_hz 1.0e9))) / 2)) / 4) := by
  have h1 : request.tel.atm_loss_db_per_km > 10 ∨ request.tel.qber_pct > 3 := by
    rw [hloss, hq]; norm_num
  have h2 : request.tel.atm_loss_db_per_km > 20 ∨ request.tel.qber_pct > 5 := by
    rw [hloss, hq]; norm_num
  simp only [PlanCycle, if_pos h1, if_pos h2]
  exact ⟨_, _, rfl, rfl, rfl, rfl, rfl, rfl⟩

/-- Witness for C3 (amended) at the concrete tier-2 request. -/
theorem C3_tier2_plan_witness :
    ∃ tx dom,
      (PlanCycle BridgeRuntime.baseline_clock tier2Request).tx = some tx ∧
      (PlanCycle BridgeRuntime.baseline_clock tier2Request).domain = some dom ∧
      dom.preferred = Domain.MMWAVE ∧ dom.dscp = 46 ∧
      tx.decoys = some { mu_signal := 0.30, mu_decoy := 0.05, vac_prob := 0.20,
                          sig_prob := 0.60, decoy_prob := 0.20 } ∧
      tx.rep_rate_hz =
        max (max tier2Request.limits.rep_rate_min_hz 1.0e6)
          ((max (max tier2Request.limits.rep_rate_min_hz 1.0e6)
             ((max (max tier2Request.limits.rep_rate_min_hz 1.0e6)
                (min 1.0e8 (pyOr tier2Request.limits.rep_rate_max_hz 1.0e9))) / 2)) / 4) :=
  C3_tier2_plan BridgeRuntime.baseline_clock tier2Request (by decide) (by decide)

/-- C1: on a tick whose telemetry QBER is at or above the configured hard
ceiling, a running loop issues shutter-close and session-stop and clears
the running flag; a parked loop does nothing; in both cases the tick
requests no plan and applies no plan (no decoy, rate or calibration
actuation), ending with the cycle sleep. -/
theorem C1_interlock_parking (config : BridgeConfig) (st : LoopState) (telemetry : Telemetry)
    (planner : PlanRequest → PlanResponse)
    (h : telemetry.qber_pct ≥ config.safety.qber_hard_ceiling_pct) :
    (st.running = true →
      BridgeRuntime.tick config st telemetry planner =
        .ok ({ st with running := false },
          [Action.shutterReq false, Action.stopReq st.session_id,
           Action.sleepCycle config.cycle_period_ms])) ∧
    (st.running = false →
      BridgeRuntime.tick config st telemetry planner =
        .ok (st, [Action.sleepCycle config.cycle_period_ms])) ∧
    (∀ st2 acts, BridgeRuntime.tick config st telemetry planner = .ok (st2, acts) →
      ∀ a ∈ acts, (∀ r, a ≠ Action.planReq r) ∧
        (∀ sid m1 m2 vp, a ≠ Action.setDecoyReq sid m1 m2 vp) ∧
        (∀ mo w sr dv u p, a ≠ Action.configureReq mo w sr dv u p) ∧
        (∀ ty, a ≠ Action.calibrateReq ty)) := by
  refine ⟨?_, ?_, ?_⟩
  · intro hrun
    simp [BridgeRuntime.tick, if_pos h, hrun]
  · intro hrun
    simp [BridgeRuntime.tick, if_pos h, hrun]
  · intro st2 acts htick a ha
    cases hrun : st.running with
    | true =>
      simp only [BridgeRuntime.tick, if_pos h, hrun, if_true] at htick
      obtain ⟨-, hacts⟩ := by simpa using htick
      subst hacts
      rcases by simpa using ha with h1 | h1 | h1 <;> subst h1 <;> simp
    | false =>
      simp only [BridgeRuntime.tick, if_pos h, hrun] at htick
      obtain ⟨-, hacts⟩ := by simpa using htick
      subst hacts
      rcases by simpa using ha with h1
      subst h1
      simp

/-- Witness for C1 at QBER 6 % against ceiling 5 % in the running state. -/
theorem C1_interlock_parking_witness :
    BridgeRuntime.tick sampleConfig { session_id := some "s", running := true }
        telLoss25Qber6 samplePlanner =
      .ok ({ session_id := some "s", running := false },
        [Action.shutterReq false, Action.stopReq (some "s"), Action.sleepCycle 500]) :=
  (C1_interlock_parking sampleConfig { session_id := some "s", running := true }
    telLoss25Qber6 samplePlanner
    (by norm_num [telLoss25Qber6, sampleConfig, sampleSafetyDict, SafetyLimits.from_dict])).1 rfl

/-- C5: on a tick whose telemetry QBER is strictly below the ceiling while
the loop is parked, the loop reopens the shutter, restarts the held
session and sets the running flag, all before the plan request of that
tick. -/
theorem C5_interlock_recovery (config : BridgeConfig) (st : LoopState) (telemetry : Telemetry)
    (planner : PlanRequest → PlanResponse) (st2 : LoopState) (acts : List Action)
    (hq : telemetry.qber_pct < config.safety.qber_hard_ceiling_pct)
    (hpark : st.running = false)
    (htick : BridgeRuntime.tick config st telemetry planner = .ok (st2, acts)) :
    st2.running = true ∧ st2.session_id = st.session_id ∧
    ∃ rest, acts =
      Action.shutterReq true :: Action.startReq st.session_id ::
        Action.planReq (BridgeRuntime.plan_request config telemetry) :: rest := by
  have hnot : ¬ telemetry.qber_pct ≥ config.safety.qber_hard_ceiling_pct := not_le.mpr hq
  simp only [BridgeRuntime.tick, if_neg hnot, hpark, Bool.false_eq_true, not_false_eq_true,
    if_true, ite_true, ite_false] at htick
  cases happ : BridgeRuntime.apply_plan config true st.session_id
      (planner (BridgeRuntime.plan_request config telemetry)) with
  | error e =>
    rw [happ] at htick
    cases htick
  | ok p =>
    obtain ⟨applyActs, pd⟩ := p
    rw [happ] at htick
    obtain ⟨hst, hacts⟩ := by simpa using htick
    subst hst
    exact ⟨rfl, rfl, applyActs ++ [Action.sleepCycle config.cycle_period_ms], by
      simpa using hacts.symm⟩

/-- The request list the recovery-tick witness produces. -/
def recoveryTickActs : List Action :=
  [Action.shutterReq true, Action.startReq (some "s"),
   Action.planReq (BridgeRuntime.plan_request sampleConfig telQber2),
   Action.setDecoyReq (some "s") (1/2) (2/25) (1/10),
   Action.configureReq "BB84_TIME_BIN" 1550 0 100 false true,
   Action.sleepCycle 500]

/-- Witness for C5 at QBER 2 % against ceiling 5 % in the parked state,
with the reference planner supplying the plan. -/
theorem C5_interlock_recovery_witness :
    ({ session_id := some "s", running := true } : LoopState).running = true ∧
    ({ session_id := some "s", running := true } : LoopState).session_id =
      ({ session_id := some "s", running := false } : LoopState).session_id ∧
    ∃ rest, recoveryTickActs =
      Action.shutterReq true ::
        Action.startReq ({ session_id := some "s", running := false } : LoopState).session_id ::
          Action.planReq (BridgeRuntime.plan_request sampleConfig telQber2) :: rest :=
  C5_interlock_recovery sampleConfig { session_id := some "s", running := false } telQber2
    samplePlanner { session_id := some "s", running := true } recoveryTickActs
    (by norm_num [telQber2, telLoss25Qber6, sampleConfig, sampleSafetyDict,
      SafetyLimits.from_dict])
    rfl
    (by
      norm_num [BridgeRuntime.tick, BridgeRuntime.apply_plan, BridgeRuntime.decoy_step,
        BridgeRuntime.rate_step, BridgeRuntime.phase_step, BridgeRuntime.clamp_decoys,
        BridgeRuntime.plan_request, BridgeRuntime.plan_constraints, BridgeRuntime.default_slo,
        BridgeRuntime.baseline_clock, samplePlanner, PlanCycle, clamp, pyOr, strTruthy,
        sampleConfig, telQber2, telLoss25Qber6, SafetyLimits.from_dict, sampleSafetyDict,
        SafetyLimits.mu_bounds, SafetyLimits.rep_bounds, recoveryTickActs,
        Except.instMonad, Except.bind, Except.pure, bind, pure]
      rw [if_neg (by decide : ¬ ("s" = ""))]
      rfl)

/-- Auxiliary invariant for C9: under a zero QBER ceiling, a run over
non-negative-QBER telemetry never requests a plan and, unless the tick
list is empty, ends parked. -/
theorem runTicks_zero_ceiling_parks (config : BridgeConfig)
    (hceil : config.safety.qber_hard_ceiling_pct = 0) :
    ∀ (tels : List Telemetry) (st : LoopState) (planner : PlanRequest → PlanResponse)
      (st2 : LoopState) (acts : List Action),
      (∀ t ∈ tels, 0 ≤ t.qber_pct) →
      BridgeRuntime.runTicks config st tels planner = .ok (st2, acts) →
      (∀ a ∈ acts, ∀ r, a ≠ Action.planReq r) ∧
      (st2.running = false ∨ (tels = [] ∧ st2 = st)) := by
  intro tels
  induction tels with
  | nil =>
    intro st planner st2 acts hall hrun
    obtain ⟨hst, hacts⟩ := by simpa [BridgeRuntime.runTicks] using hrun
    subst hacts
    exact ⟨by simp, Or.inr ⟨rfl, hst.symm⟩⟩
  | cons t ts ih =>
    intro st planner st2 acts hall hrun
    have hq : t.qber_pct ≥ config.safety.qber_hard_ceiling_pct := by
      rw [hceil]
      exact hall t (List.mem_cons_self t ts)
    rw [BridgeRuntime.runTicks] at hrun
    cases hflag : st.running with
    | true =>
      simp only [BridgeRuntime.tick, if_pos hq, hflag, if_true, ite_true] at hrun
      cases hrest : BridgeRuntime.runTicks config { st with running := false } ts planner with
      | error e =>
        rw [hrest] at hrun
        cases hrun
      | ok p =>
        obtain ⟨st3, acts3⟩ := p
        rw [hrest] at hrun
        obtain ⟨hst, hacts⟩ := by simpa using hrun
        subst hst hacts
        obtain ⟨hnoplan, hpark⟩ := ih { st with running := false } planner st3 acts3
          (fun u hu => hall u (List.mem_cons_of_mem t hu)) hrest
        refine ⟨?_, ?_⟩
        · intro a ha r
          rcases by simpa using ha with h1 | h1 | h1 | h1
          · subst h1
            simp
          · subst h1
            simp
          · subst h1
            simp
          · exact hnoplan a h1 r
        · rcases hpark with h2 | ⟨h2, h3⟩
          · exact Or.inl h2
          · subst h3
            exact Or.inl rfl
    | false =>
      simp only [BridgeRuntime.tick, if_pos hq, hflag, Bool.false_eq_true, if_false,
        ite_false] at hrun
      cases hrest : BridgeRuntime.runTicks config st ts planner with
      | error e =>
        rw [hrest] at hrun
        cases hrun
      | ok p =>
        obtain ⟨st3, acts3⟩ := p
        rw [hrest] at hrun
        obtain ⟨hst, hacts⟩ := by simpa using hrun
        subst hst hacts
        obtain ⟨hnoplan, hpark⟩ := ih st planner st3 acts3
          (fun u hu => hall u (List.mem_cons_of_mem t hu)) hrest
        refine ⟨?_, ?_⟩
        · intro a ha r
          rcases by simpa using ha with h1 | h1
          · subst h1
            simp
          · exact hnoplan a h1 r
        · rcases hpark with h2 | ⟨h2, h3⟩
          · exact Or.inl h2
          · subst h3
            exact Or.inl hflag

/-- C9: a safety section with no `qber_hard_ceiling_pct` key defaults the
ceiling to 0.0; under such a configuration every tick with non-negative
QBER takes the parking branch, so the loop parks on the first tick and
never requests a plan. -/
theorem C9_default_ceiling_parks (d : SafetyDict) (config : BridgeConfig) (st : LoopState)
    (tels : List Telemetry) (planner : PlanRequest → PlanResponse)
    (st2 : LoopState) (acts : List Action)
    (hd : d.qber_hard_ceiling_pct = none)
    (hcfg : config.safety = SafetyLimits.from_dict d)
    (hall : ∀ t ∈ tels, 0 ≤ t.qber_pct)
    (hrun : BridgeRuntime.runTicks config st tels planner = .ok (st2, acts)) :
    config.safety.qber_hard_ceiling_pct = 0 ∧
    (∀ a ∈ acts, ∀ r, a ≠ Action.planReq r) ∧
    (tels ≠ [] → st2.running = false) := by
  have hceil : config.safety.qber_hard_ceiling_pct = 0 := by
    rw [hcfg]
    simp [SafetyLimits.from_dict, hd]
  obtain ⟨hnoplan, hpark⟩ :=
    runTicks_zero_ceiling_parks config hceil tels st planner st2 acts hall hrun
  refine ⟨hceil, hnoplan, ?_⟩
  intro hne
  rcases hpark with h | ⟨h, -⟩
  · exact h
  · exact absurd h hne

/-- Witness for C9: one tick at QBER 0 under the no-ceiling configuration
parks immediately. -/
theorem C9_default_ceiling_parks_witness :
    noCeilingConfig.safety.qber_hard_ceiling_pct = 0 ∧
    (∀ a ∈ [Action.shutterReq false, Action.stopReq (some "s"), Action.sleepCycle 500],
      ∀ r, a ≠ Action.planReq r) ∧
    ([telQber0] ≠ ([] : List Telemetry) →
      ({ session_id := some "s", running := false } : LoopState).running = false) :=
  C9_default_ceiling_parks noCeilingSafetyDict noCeilingConfig
    { session_id := some "s", running := true } [telQber0] samplePlanner
    { session_id := some "s", running := false }
    [Action.shutterReq false, Action.stopReq (some "s"), Action.sleepCycle 500]
    rfl rfl
    (by
      intro t ht
      rw [List.mem_singleton.mp ht]
      norm_num [telQber0, telLoss25Qber6])
    (by
      norm_num [BridgeRuntime.runTicks, BridgeRuntime.tick, noCeilingConfig, sampleConfig,
        noCeilingSafetyDict, sampleSafetyDict, SafetyLimits.from_dict, telQber0,
        telLoss25Qber6])

/-- C6 counterexample.  First: with a session id already held and the
controller client absent, `ensure_session` succeeds instead of failing
with a precondition violation (the held-session early return precedes the
client check).  Second: under the sample configuration, whose
repetition-rate range defaults to (0, 0), a fresh session is configured
at the fixed 100 MHz fallback, not at the range midpoint (which is 0). -/
theorem C6_counterexample :
    BridgeRuntime.ensure_session sampleConfig
        { session_id := some "sess", running := true } false "other" =
      .ok ({ session_id := some "sess", running := true }, [], "sess") ∧
    BridgeRuntime.ensure_session sampleConfig
        { session_id := none, running := false } true "sess" =
      .ok ({ session_id := some "sess", running := true },
        [Action.configureReq "BB84_TIME_BIN" 1550 100 100 false true,
         Action.startReq (some "sess")], "sess") ∧
    (100 : ℚ) ≠
      (sampleConfig.safety.rep_bounds.1 + sampleConfig.safety.rep_bounds.2) / 2 / 1.0e6 := by
  refine ⟨?_, ?_, ?_⟩
  · simp [BridgeRuntime.ensure_session]
  · simp [BridgeRuntime.ensure_session, BridgeRuntime.ensure_fresh,
      BridgeRuntime.initial_symbol_rate_mhz, sampleConfig, sampleSafetyDict,
      SafetyLimits.from_dict, SafetyLimits.rep_bounds]
  · norm_num [sampleConfig, sampleSafetyDict, SafetyLimits.from_dict, SafetyLimits.rep_bounds]

/-- C6 (amended): `ensure_session` is idempotent — with a truthy session id
held it returns that id unchanged and issues no requests, even when the
controller client is absent; without one, it fails with a precondition
violation if the client is absent, and otherwise issues a Configure whose
symbol rate is the midpoint of the configured repetition-rate range when
the range's upper bound is positive (a fixed 100 MHz otherwise), captures
the returned session id, issues a start request for it and marks it
running. -/
theorem C6_ensure_session (config : BridgeConfig) (st : LoopState) (qcs_connected : Bool)
    (controller_session : String) :
    (∀ sid, st.session_id = some sid → sid ≠ "" →
      BridgeRuntime.ensure_session config st qcs_connected controller_session =
        .ok (st, [], sid)) ∧
    (strTruthy st.session_id = false → qcs_connected = false →
      BridgeRuntime.ensure_session config st qcs_connected controller_session =
        .error "QCS stub is not connected") ∧
    (strTruthy st.session_id = false → qcs_connected = true →
      BridgeRuntime.ensure_session config st qcs_connected controller_session =
        .ok ({ st with session_id := some controller_session, running := true },
          [Action.configureReq "BB84_TIME_BIN" 1550
            (if config.safety.rep_bounds.2 ≤ 0 then 100
             else (config.safety.rep_bounds.1 + config.safety.rep_bounds.2) / 2 / 1.0e6)
            100 false true,
           Action.startReq (some controller_session)],
          controller_session)) := by
  refine ⟨?_, ?_, ?_⟩
  · intro sid hsid hne
    simp [BridgeRuntime.ensure_session, hsid, hne]
  · intro htruthy hqcs
    subst hqcs
    cases hsid : st.session_id with
    | none =>
      simp [BridgeRuntime.ensure_session, hsid, BridgeRuntime.ensure_fresh]
    | some s =>
      have hs : s = "" := by
        by_contra hne
        rw [hsid] at htruthy
        simp [strTruthy, hne] at htruthy
      subst hs
      simp [BridgeRuntime.ensure_session, hsid, BridgeRuntime.ensure_fresh]
  · intro htruthy hqcs
    subst hqcs
    cases hsid : st.session_id with
    | none =>
      simp [BridgeRuntime.ensure_session, hsid, BridgeRuntime.ensure_fresh,
        BridgeRuntime.initial_symbol_rate_mhz]
    | some s =>
      have hs : s = "" := by
        by_contra hne
        rw [hsid] at htruthy
        simp [strTruthy, hne] at htruthy
      subst hs
      simp [BridgeRuntime.ensure_session, hsid, BridgeRuntime.ensure_fresh,
        BridgeRuntime.initial_symbol_rate_mhz]

/-- Witness for C6 (amended): the held-session and absent-client cases at
concrete states. -/
theorem C6_ensure_session_witness :
    BridgeRuntime.ensure_session sampleConfig
        { session_id := some "sess", running := true } true "x" =
      .ok ({ session_id := some "sess", running := true }, [], "sess") ∧
    BridgeRuntime.ensure_session sampleConfig
        { session_id := none, running := false } false "x" =
      .error "QCS stub is not connected" :=
  ⟨(C6_ensure_session sampleConfig { session_id := some "sess", running := true }
      true "x").1 "sess" rfl (by decide),
   (C6_ensure_session sampleConfig { session_id := none, running := false }
      false "x").2.1 rfl rfl⟩

/-- A safety section whose mu range is inverted (lo = 1 > 0 = hi). -/
def invertedSafetyDict : SafetyDict :=
  { sampleSafetyDict with mu_range := some (1, 0) }

/-- C4 counterexample: `SafetyLimits.from_dict` accepts an inverted
mu range without any error — the constructed limits carry the inverted
bounds, and the per-cycle decoy clamping then fails with the
configuration error at runtime, contrary to the claim that the range is
rejected at construction/config-load time. -/
theorem C4_counterexample :
    (SafetyLimits.from_dict invertedSafetyDict).mu_range = ((1 : ℚ), 0) ∧
    BridgeRuntime.clamp_decoys (SafetyLimits.from_dict invertedSafetyDict)
        { mu_signal := 0.5, mu_decoy := 0.05, vac_prob := 0.2, sig_prob := 0.6,
          decoy_prob := 0.2 } =
      .error "invalid clamp bounds" := by
  constructor
  · rfl
  · norm_num [BridgeRuntime.clamp_decoys, clamp, pyOr, SafetyLimits.from_dict,
      SafetyLimits.mu_bounds, invertedSafetyDict, sampleSafetyDict,
      Except.instMonad, Except.bind, Except.pure, bind, pure]

/-- C4 (amended): constructing `SafetyLimits` from a dictionary with an
inverted mu range succeeds and preserves the inverted bounds — no
validation occurs at construction or config-load time; instead, every
per-cycle decoy clamping under the resulting limits fails with the
configuration error. -/
theorem C4_no_construction_validation (d : SafetyDict) (lo hi : ℚ)
    (hmu : d.mu_range = some (lo, hi)) (hinv : lo > hi) :
    (SafetyLimits.from_dict d).mu_range = (lo, hi) ∧
    ∀ decoys, BridgeRuntime.clamp_decoys (SafetyLimits.from_dict d) decoys =
      .error "invalid clamp bounds" := by
  constructor
  · simp [SafetyLimits.from_dict, hmu]
  · intro decoys
    simp [BridgeRuntime.clamp_decoys, clamp, SafetyLimits.from_dict,
      SafetyLimits.mu_bounds, hmu, hinv,
      Except.instMonad, Except.bind, Except.pure, bind, pure]

/-- Witness for C4 (amended) at the concrete inverted dictionary. -/
theorem C4_no_construction_validation_witness :
    (SafetyLimits.from_dict invertedSafetyDict).mu_range = ((1 : ℚ), 0) ∧
    ∀ decoys, BridgeRuntime.clamp_decoys (SafetyLimits.from_dict invertedSafetyDict) decoys =
      .error "invalid clamp bounds" :=
  C4_no_construction_validation invertedSafetyDict 1 0 rfl (by norm_num)

/-- Shape of the decoy block's output: empty, or exactly one decoy-profile
request carrying the clamped profile's signal/decoy means and vacuum
probability. -/
theorem decoy_step_shape (config : BridgeConfig) (session_id : Option String)
    (plan : PlanResponse) (l : List Action)
    (h : BridgeRuntime.decoy_step config session_id plan = .ok l) :
    l = [] ∨ ∃ tx d dd, plan.tx = some tx ∧ tx.decoys = some d ∧
      BridgeRuntime.clamp_decoys config.safety d = .ok dd ∧
      l = [Action.setDecoyReq session_id dd.mu_signal dd.mu_decoy dd.vac_prob] := by
  cases htx : plan.tx with
  | none =>
    simp only [BridgeRuntime.decoy_step, htx] at h
    injection h with h2
    exact Or.inl h2.symm
  | some tx =>
    cases hd : tx.decoys with
    | none =>
      simp only [BridgeRuntime.decoy_step, htx, hd] at h
      injection h with h2
      exact Or.inl h2.symm
    | some d =>
      cases hcd : BridgeRuntime.clamp_decoys config.safety d with
      | error e =>
        simp only [BridgeRuntime.decoy_step, htx, hd, hcd] at h
        exact Except.noConfusion h
      | ok dd =>
        simp only [BridgeRuntime.decoy_step, htx, hd, hcd] at h
        injection h with h2
        exact Or.inr ⟨tx, d, dd, rfl, hd, hcd, h2.symm⟩

/-- Shape of the repetition-rate block's output: empty, or exactly one
Configure request carrying the clamped rate converted to MHz. -/
theorem rate_step_shape (config : BridgeConfig) (plan : PlanResponse) (l : List Action)
    (h : BridgeRuntime.rate_step config plan = .ok l) :
    l = [] ∨ ∃ tx rep, plan.tx = some tx ∧
      clamp tx.rep_rate_hz config.safety.rep_bounds = .ok rep ∧
      l = [Action.configureReq "BB84_TIME_BIN" 1550 (rep / 1.0e6) 100 false true] := by
  cases htx : plan.tx with
  | none =>
    simp only [BridgeRuntime.rate_step, htx] at h
    injection h with h2
    exact Or.inl h2.symm
  | some tx =>
    by_cases hnz : tx.rep_rate_hz ≠ 0
    · cases hcl : clamp tx.rep_rate_hz config.safety.rep_bounds with
      | error e =>
        simp only [BridgeRuntime.rate_step, htx, if_pos hnz, hcl] at h
        exact Except.noConfusion h
      | ok rep =>
        simp only [BridgeRuntime.rate_step, htx, if_pos hnz, hcl] at h
        injection h with h2
        exact Or.inr ⟨tx, rep, rfl, hcl, h2.symm⟩
    · simp only [BridgeRuntime.rate_step, htx, if_neg hnz] at h
      injection h with h2
      exact Or.inl h2.symm

/-- Shape of the phase block's output: no request, or exactly one
calibration request carrying only the calibration type. -/
theorem phase_step_shape (config : BridgeConfig) (plan : PlanResponse)
    (p : List Action × Option ℚ)
    (h : BridgeRuntime.phase_step config plan = .ok p) :
    p.1 = [] ∨ p.1 = [Action.calibrateReq "MZI_PHASE"] := by
  cases hph : plan.phase with
  | none =>
    simp only [BridgeRuntime.phase_step, hph] at h
    injection h with h2
    rw [← h2]
    exact Or.inl rfl
  | some ph =>
    by_cases hgt : |ph.amzi_phase_deg| > 0.1
    · cases hcl : clamp ph.amzi_phase_deg
          (-config.safety.amzi_phase_deg_limit, config.safety.amzi_phase_deg_limit) with
      | error e =>
        simp only [BridgeRuntime.phase_step, hph, if_pos hgt, hcl] at h
        exact Except.noConfusion h
      | ok delta =>
        simp only [BridgeRuntime.phase_step, hph, if_pos hgt, hcl] at h
        injection h with h2
        rw [← h2]
        exact Or.inr rfl
    · simp only [BridgeRuntime.phase_step, hph, if_neg hgt] at h
      injection h with h2
      rw [← h2]
      exact Or.inl rfl

/-- C7: when applying a plan with phase overrides, the phase delta is the
plan's `amzi_phase_deg` clamped to the configured ± limit, and the
phase-calibration actuation is issued if and only if the unclamped
magnitude exceeds the 0.1-degree deadband. -/
theorem C7_phase_deadband (config : BridgeConfig) (session_id : Option String)
    (plan : PlanResponse) (ph : PhaseOverrides) (acts : List Action) (pd : Option ℚ)
    (hlim : 0 ≤ config.safety.amzi_phase_deg_limit)
    (hph : plan.phase = some ph)
    (happ : BridgeRuntime.apply_plan config true session_id plan = .ok (acts, pd)) :
    (|ph.amzi_phase_deg| > 0.1 →
      pd = some (max (-config.safety.amzi_phase_deg_limit)
        (min config.safety.amzi_phase_deg_limit ph.amzi_phase_deg)) ∧
      -config.safety.amzi_phase_deg_limit ≤
        max (-config.safety.amzi_phase_deg_limit)
          (min config.safety.amzi_phase_deg_limit ph.amzi_phase_deg) ∧
      max (-config.safety.amzi_phase_deg_limit)
          (min config.safety.amzi_phase_deg_limit ph.amzi_phase_deg) ≤
        config.safety.amzi_phase_deg_limit ∧
      Action.calibrateReq "MZI_PHASE" ∈ acts) ∧
    (¬ |ph.amzi_phase_deg| > 0.1 →
      pd = none ∧ Action.calibrateReq "MZI_PHASE" ∉ acts) := by
  cases hstr : strTruthy session_id with
  | false =>
    simp [BridgeRuntime.apply_plan, hstr] at happ
  | true =>
    simp only [BridgeRuntime.apply_plan, hstr, Bool.not_true, not_true_eq_false,
      Bool.true_eq_false, or_self, if_false, ite_false] at happ
    cases hdec : BridgeRuntime.decoy_step config session_id plan with
    | error e =>
      rw [hdec] at happ
      cases happ
    | ok dActs =>
      rw [hdec] at happ
      cases hrate : BridgeRuntime.rate_step config plan with
      | error e =>
        rw [hrate] at happ
        cases happ
      | ok rActs =>
        rw [hrate] at happ
        by_cases hgt : |ph.amzi_phase_deg| > 0.1
        · have hno : ¬ (-config.safety.amzi_phase_deg_limit >
              config.safety.amzi_phase_deg_limit) := by
            push_neg
            linarith
          have hps : BridgeRuntime.phase_step config plan =
              .ok ([Action.calibrateReq "MZI_PHASE"],
                some (max (-config.safety.amzi_phase_deg_limit)
                  (min config.safety.amzi_phase_deg_limit ph.amzi_phase_deg))) := by
            simp only [BridgeRuntime.phase_step, hph, if_pos hgt]
            simp [clamp, hno]
          rw [hps] at happ
          obtain ⟨hacts, hpd⟩ := by simpa using happ
          subst hacts hpd
          refine ⟨fun _ => ⟨rfl, le_max_left _ _, max_le (by linarith) (min_le_left _ _), ?_⟩,
            fun hcon => absurd hgt hcon⟩
          simp
        · have hps : BridgeRuntime.phase_step config plan = .ok ([], none) := by
            simp only [BridgeRuntime.phase_step, hph, if_neg hgt]
          rw [hps] at happ
          obtain ⟨hacts, hpd⟩ := by simpa using happ
          subst hacts hpd
          refine ⟨fun hcon => absurd hcon hgt, fun _ => ⟨rfl, ?_⟩⟩
          intro hmem
          rcases List.mem_append.mp hmem with hm | hm
          · rcases decoy_step_shape config session_id plan dActs hdec with h1 | ⟨_, _, _, _, _, _, h1⟩
            · subst h1
              simp at hm
            · subst h1
              simp at hm
          · rcases rate_step_shape config plan rActs hrate with h1 | ⟨_, _, _, _, h1⟩
            · subst h1
              simp at hm
            · subst h1
              simp at hm

/-- A plan carrying only phase overrides (5 degrees). -/
def phasePlan : PlanResponse :=
  { tx := none, phase := some { amzi_phase_deg := 5, eom_bias_v_delta := 0 },
    domain := none, next_cycle_ms := 500 }

/-- Witness for C7 at a 5-degree phase override under the sample
configuration (phase limit defaulted to 0). -/
theorem C7_phase_deadband_witness :
    (some (0 : ℚ)) = some (max (-sampleConfig.safety.amzi_phase_deg_limit)
        (min sampleConfig.safety.amzi_phase_deg_limit
          ({ amzi_phase_deg := 5, eom_bias_v_delta := 0 } : PhaseOverrides).amzi_phase_deg)) ∧
    Action.calibrateReq "MZI_PHASE" ∈ ([Action.calibrateReq "MZI_PHASE"] : List Action) := by
  have h := C7_phase_deadband sampleConfig (some "s") phasePlan
    { amzi_phase_deg := 5, eom_bias_v_delta := 0 }
    [Action.calibrateReq "MZI_PHASE"] (some 0)
    (by norm_num [sampleConfig, sampleSafetyDict, SafetyLimits.from_dict])
    rfl
    (by
      norm_num [BridgeRuntime.apply_plan, BridgeRuntime.decoy_step, BridgeRuntime.rate_step,
        BridgeRuntime.phase_step, phasePlan, clamp, strTruthy, sampleConfig, sampleSafetyDict,
        SafetyLimits.from_dict, abs_of_nonneg]
      exact fun hcon => absurd hcon (by decide))
  have hgt : |({ amzi_phase_deg := 5, eom_bias_v_delta := 0 } :
      PhaseOverrides).amzi_phase_deg| > 0.1 := by
    norm_num [abs_of_nonneg]
  exact ⟨(h.1 hgt).1, (h.1 hgt).2.2.2⟩

/-- C10: every controller request issued while applying a plan is a
decoy-profile request carrying exactly the clamped profile's
(mu_signal, mu_decoy, vac_prob), a Configure request carrying the clamped
repetition rate in MHz, or a Calibrate request carrying only the
calibration type; no other plan field is ever transmitted. -/
theorem C10_actuation_surface (config : BridgeConfig) (qcs_connected : Bool)
    (session_id : Option String) (plan : PlanResponse) (acts : List Action) (pd : Option ℚ)
    (happ : BridgeRuntime.apply_plan config qcs_connected session_id plan = .ok (acts, pd)) :
    ∀ a ∈ acts,
      (∃ tx d dd, plan.tx = some tx ∧ tx.decoys = some d ∧
        BridgeRuntime.clamp_decoys config.safety d = .ok dd ∧
        a = Action.setDecoyReq session_id dd.mu_signal dd.mu_decoy dd.vac_prob) ∨
      (∃ tx rep, plan.tx = some tx ∧
        clamp tx.rep_rate_hz config.safety.rep_bounds = .ok rep ∧
        a = Action.configureReq "BB84_TIME_BIN" 1550 (rep / 1.0e6) 100 false true) ∨
      a = Action.calibrateReq "MZI_PHASE" := by
  cases hqcs : qcs_connected with
  | false =>
    simp [BridgeRuntime.apply_plan, hqcs] at happ
  | true =>
    cases hstr : strTruthy session_id with
    | false =>
      simp [BridgeRuntime.apply_plan, hqcs, hstr] at happ
    | true =>
      simp only [BridgeRuntime.apply_plan, hqcs, hstr, Bool.not_true, not_true_eq_false,
        Bool.true_eq_false, or_self, if_false, ite_false] at happ
      cases hdec : BridgeRuntime.decoy_step config session_id plan with
      | error e =>
        rw [hdec] at happ
        cases happ
      | ok dActs =>
        rw [hdec] at happ
        cases hrate : BridgeRuntime.rate_step config plan with
        | error e =>
          rw [hrate] at happ
          cases happ
        | ok rActs =>
          rw [hrate] at happ
          cases hpp : BridgeRuntime.phase_step config plan with
          | error e =>
            rw [hpp] at happ
            cases happ
          | ok p =>
            rw [hpp] at happ
            obtain ⟨hacts, -⟩ := by simpa using happ
            subst hacts
            intro a ha
            rcases List.mem_append.mp ha with hm | hm
            · rcases decoy_step_shape config session_id plan dActs hdec with
                h1 | ⟨tx, d, dd, htx, hd, hcd, h1⟩
              · subst h1
                simp at hm
              · subst h1
                left
                exact ⟨tx, d, dd, htx, hd, hcd, by simpa using hm⟩
            · rcases List.mem_append.mp hm with hm2 | hm2
              · rcases rate_step_shape config plan rActs hrate with
                  h1 | ⟨tx, rep, htx, hcl, h1⟩
                · subst h1
                  simp at hm2
                · subst h1
                  right; left
                  exact ⟨tx, rep, htx, hcl, by simpa using hm2⟩
              · rcases phase_step_shape config plan p hpp with h1 | h1
                · rw [h1] at hm2
                  simp at hm2
                · rw [h1] at hm2
                  right; right
                  simpa using hm2

/-- Witness for C10 at the concrete plan the reference planner produces on
a healthy tick under the sample configuration. -/
theorem C10_actuation_surface_witness :
    (∃ tx d dd,
      (samplePlanner (BridgeRuntime.plan_request sampleConfig telQber2)).tx = some tx ∧
      tx.decoys = some d ∧
      BridgeRuntime.clamp_decoys sampleConfig.safety d = .ok dd ∧
      Action.setDecoyReq (some "s") (1/2) (2/25) (1/10) =
        Action.setDecoyReq (some "s") dd.mu_signal dd.mu_decoy dd.vac_prob) ∨
    (∃ tx rep,
      (samplePlanner (BridgeRuntime.plan_request sampleConfig telQber2)).tx = some tx ∧
      clamp tx.rep_rate_hz sampleConfig.safety.rep_bounds = .ok rep ∧
      Action.setDecoyReq (some "s") (1/2) (2/25) (1/10) =
        Action.configureReq "BB84_TIME_BIN" 1550 (rep / 1.0e6) 100 false true) ∨
    Action.setDecoyReq (some "s") (1/2) (2/25) (1/10) = Action.calibrateReq "MZI_PHASE" := by
  have h := C10_actuation_surface sampleConfig true (some "s")
    (samplePlanner (BridgeRuntime.plan_request sampleConfig telQber2))
    [Action.setDecoyReq (some "s") (1/2) (2/25) (1/10),
     Action.configureReq "BB84_TIME_BIN" 1550 0 100 false true] none
    (by
      norm_num [BridgeRuntime.apply_plan, BridgeRuntime.decoy_step, BridgeRuntime.rate_step,
        BridgeRuntime.phase_step, BridgeRuntime.clamp_decoys, BridgeRuntime.plan_request,
        BridgeRuntime.plan_constraints, BridgeRuntime.default_slo, BridgeRuntime.baseline_clock,
        samplePlanner, PlanCycle, clamp, pyOr, strTruthy, sampleConfig, telQber2,
        telLoss25Qber6, SafetyLimits.from_dict, sampleSafetyDict, SafetyLimits.mu_bounds,
        SafetyLimits.rep_bounds, Except.instMonad, Except.bind, Except.pure, bind, pure]
      exact fun hcon => absurd hcon (by decide))
  exact h (Action.setDecoyReq (some "s") (1/2) (2/25) (1/10)) (by simp)

end DcqBridge
